import Mathlib

/-!
Verification of the tecgonic library core: a shallow embedding of the
error classifier, the Compile / GenerateFormat orchestration paths and the
PrepareBundle download/extraction pipeline, with theorems settling the
specification claims about them.

Conventions of the embedding:
* machine integers are modelled as Nat / Int with explicit truncation where
  Go truncates (the int32 conversion of a WASM result value);
* the nondeterministic surroundings of a call (the WASM invocation outcome,
  the HTTP response, the gzip decoder) are passed in as explicit data;
* filesystem directories are association lists from file name to content;
* local I/O primitives that the source code only propagates errors from
  (MkdirTemp, MkdirAll, WriteFile for scratch files) are modelled as
  succeeding, since no claim concerns their failure;
* each Go error-construction site is one constructor of the error type.
-/

namespace Tecgonic

/-- Underlying low-level wazero error (a trap), opaque to the classifier;
modelled as a wrapper around its message. -/
structure WasmError where
  msg : String
  deriving DecidableEq

/-- Conversion of a WASM result value (a Nat as wazero reports it) to a Go
int32 by two's-complement truncation, as in the expression int32(results[0]). -/
def toInt32 (n : Nat) : Int :=
  if n % 2 ^ 32 < 2 ^ 31 then ((n % 2 ^ 32 : Nat) : Int)
  else ((n % 2 ^ 32 : Nat) : Int) - 2 ^ 32

/-- CompileError from errors.go: a failure during LaTeX compilation.
ExitCode is the stored int32 code, Logs the captured stderr text, WasmErr
the underlying wazero error (none for normal TeX errors). -/
structure CompileError where
  ExitCode : Int
  Logs : String
  WasmErr : Option WasmError
  deriving DecidableEq

/-- IsTexError returns true if the error is a TeX compilation error (exit code 1). -/
def CompileError.IsTexError (e : CompileError) : Bool :=
  e.ExitCode == 1

/-- IsPanic returns true if the error is a WASM engine trap (exit code 2). -/
def CompileError.IsPanic (e : CompileError) : Bool :=
  e.ExitCode == 2

/-- Unwrap returns the underlying wazero error for chaining. -/
def CompileError.Unwrap (e : CompileError) : Option WasmError :=
  e.WasmErr

/-- Outcome of fn.Call on the sandbox instance: an optional trap error and
the list of returned numeric values (results[0] is the outcome code). -/
structure CallResult where
  callErr : Option WasmError
  results : List Nat
  deriving DecidableEq

/-- Classification step shared verbatim by Compile and GenerateFormat:
a trap becomes a CompileError with code 2 carrying the trap as cause; a
non-zero first result becomes a CompileError with the truncated code and
no cause; otherwise no error. -/
def classifyCall (r : CallResult) (logs : String) : Option CompileError :=
  match r.callErr with
  | some e => some { ExitCode := 2, Logs := logs, WasmErr := some e }
  | none =>
    match r.results with
    | [] => none
    | n :: _ =>
      if n != 0 then some { ExitCode := toInt32 n, Logs := logs, WasmErr := none }
      else none

/-- Classification content of an optional CompileError: the stored exit
code, ignoring the captured diagnostic text and the wrapped cause. -/
def classOf : Option CompileError → Option Int
  | none => none
  | some e => some e.ExitCode

/-- compilerConfig from options.go: configuration set once on New. -/
structure CompilerConfig where
  defaultBundleDir : String
  defaultFontsDir : String
  compilationCacheDir : String
  deriving DecidableEq

/-- CompileOption values from options.go (WithStderr carries only the fact
that a sink was supplied; the sink itself is irrelevant to control flow). -/
inductive CompileOption where
  | WithBundleDir (dir : String)
  | WithFontsDir (dir : String)
  | WithStderr
  deriving DecidableEq

/-- compileConfig from options.go: per-call configuration for Compile. -/
structure CompileConfig where
  bundleDir : String
  fontsDir : String
  hasStderr : Bool
  deriving DecidableEq

/-- Application of one CompileOption to a compileConfig. -/
def applyCompileOption (c : CompileConfig) : CompileOption → CompileConfig
  | .WithBundleDir d => { c with bundleDir := d }
  | .WithFontsDir d => { c with fontsDir := d }
  | .WithStderr => { c with hasStderr := true }

/-- Resolution of the per-call configuration: start from the host-level
defaults and apply the per-call options in order (Compile lines 164-170). -/
def resolveCompileConfig (host : CompilerConfig) (opts : List CompileOption) : CompileConfig :=
  opts.foldl applyCompileOption
    { bundleDir := host.defaultBundleDir
      fontsDir := host.defaultFontsDir
      hasStderr := false }

/-- Nondeterministic surroundings of one Compile call: the outcome of
module instantiation, whether the exported function is present, the call
result, the captured stderr text, and the content of output/input.pdf
after the call (none if the file is absent). -/
structure SandboxRun where
  instErr : Option WasmError
  fnFound : Bool
  call : CallResult
  stderrText : String
  outputPdf : Option (List UInt8)
  deriving DecidableEq

/-- Error type: one constructor per Go error-construction site relevant to
the claims (each fmt.Errorf site or CompileError return is one case). -/
inductive TecError where
  | configErr (msg : String)
  | instantiateErr (e : WasmError)
  | fnNotFound (name : String)
  | compileErr (e : CompileError)
  | missingOutput (logs : String)
  | noFormatFile (logs : String)
  | httpErr (status : Nat)
  | tarReadErr (msg : String)
  | writeEntryErr (name : String)
  | incompleteExtraction (count : Nat)
  deriving DecidableEq

/-- Observable side effects of one Compile or GenerateFormat call. -/
structure Effects where
  tempDirCreated : Bool
  fileWritten : Bool
  sandboxInstantiated : Bool
  invoked : Bool
  statted : Bool
  deriving DecidableEq

/-- Effects value with nothing touched. -/
def noEffects : Effects :=
  { tempDirCreated := false
    fileWritten := false
    sandboxInstantiated := false
    invoked := false
    statted := false }

/-- Compile from tecgonic.go lines 163-271: resolve configuration, fail on
an empty bundle directory before any filesystem or sandbox work, otherwise
allocate the working tree, write input.tex, instantiate a fresh module,
invoke tectonic_compile_defaults, classify the outcome, and read the
output PDF, whose absence after a zero return is itself an error. -/
def Compile (host : CompilerConfig) (opts : List CompileOption) (run : SandboxRun) :
    Except TecError (List UInt8) × Effects :=
  let cfg := resolveCompileConfig host opts
  if cfg.bundleDir = "" then
    (.error (.configErr "tecgonic: no bundle directory specified (use WithDefaultBundleDir or WithBundleDir)"),
      noEffects)
  else
    let effDirs : Effects :=
      { tempDirCreated := true
        fileWritten := true
        sandboxInstantiated := false
        invoked := false
        statted := false }
    match run.instErr with
    | some e => (.error (.instantiateErr e), effDirs)
    | none =>
      let effInst := { effDirs with sandboxInstantiated := true }
      if run.fnFound = false then
        (.error (.fnNotFound "tectonic_compile_defaults"), effInst)
      else
        let effCall := { effInst with invoked := true }
        match classifyCall run.call run.stderrText with
        | some ce => (.error (.compileErr ce), effCall)
        | none =>
          match run.outputPdf with
          | none => (.error (.missingOutput run.stderrText), effCall)
          | some pdf => (.ok pdf, effCall)

/-- Directory contents: an association list from file name to content, in
the order os.ReadDir would report names. -/
abbrev Dir := List (String × List UInt8)

/-- Existence check for a name in a directory (os.Stat succeeding). -/
def dirHas (d : Dir) (name : String) : Bool :=
  d.any (fun e => e.1 == name)

/-- Writing a file with os.Create semantics: replace the content if the
name exists, otherwise append the new entry. -/
def dirWrite (d : Dir) (name : String) (content : List UInt8) : Dir :=
  if dirHas d name then
    d.map (fun e => if e.1 == name then (name, content) else e)
  else d ++ [(name, content)]

/-- Characters of the last slash-separated component of a character list. -/
def lastComponent (l : List Char) : List Char :=
  l.foldl (fun acc c => if c = '/' then [] else acc.concat c) []

/-- filepath.Base on Unix: empty path gives ".", trailing slashes are
dropped, an all-slash path gives "/", otherwise the last component. -/
def filepathBase (p : String) : String :=
  if p = "" then "."
  else
    let l := (p.data.reverse.dropWhile (fun c => c = '/')).reverse
    if l = [] then "/" else ⟨lastComponent l⟩

/-- Helper scanning the reversed characters of a path for its extension:
accumulate until a dot (found) or a slash / the start (no extension). -/
def extOfReversed (acc : List Char) : List Char → List Char
  | [] => []
  | c :: rest =>
    if c = '/' then []
    else if c = '.' then '.' :: acc
    else extOfReversed (c :: acc) rest

/-- filepath.Ext: the suffix of the final element starting at its final
dot, or the empty string when the final element has no dot. -/
def filepathExt (p : String) : String :=
  ⟨extOfReversed [] p.data.reverse⟩

/-- Nondeterministic surroundings of one GenerateFormat call: instantiation
outcome, exported-function presence, call result, captured stderr text and
the contents of the scratch cache directory after the call. -/
structure FmtRun where
  instErr : Option WasmError
  fnFound : Bool
  call : CallResult
  stderrText : String
  cacheDir : Dir
  deriving DecidableEq

/-- Locating the produced format artifact (GenerateFormat lines 131-147):
first the fixed name latex.fmt in the cache directory, otherwise the first
directory entry whose extension is .fmt, otherwise nothing. -/
def findFmtFile (cache : Dir) : Option (List UInt8) :=
  match cache.find? (fun e => e.1 == "latex.fmt") with
  | some e => some e.2
  | none =>
    match cache.find? (fun e => filepathExt e.1 == ".fmt") with
    | some e => some e.2
    | none => none

/-- GenerateFormat from tecgonic.go lines 61-159: fail on an empty bundle
directory before any filesystem access; return success at once when
latex.fmt already exists in the bundle directory; otherwise allocate a
working tree, instantiate a module, invoke tectonic_generate_format,
classify the outcome, locate the produced artifact in the cache and copy
it into the bundle directory under latex.fmt. Returns the result, the
bundle directory contents after the call, and the observable effects. -/
def GenerateFormat (bundleDir : String) (bundle : Dir) (run : FmtRun) :
    Except TecError Unit × Dir × Effects :=
  if bundleDir = "" then
    (.error (.configErr "tecgonic: no bundle directory specified"), bundle, noEffects)
  else
    let effStat := { noEffects with statted := true }
    if dirHas bundle "latex.fmt" then
      (.ok (), bundle, effStat)
    else
      let effDirs := { effStat with tempDirCreated := true }
      match run.instErr with
      | some e => (.error (.instantiateErr e), bundle, effDirs)
      | none =>
        let effInst := { effDirs with sandboxInstantiated := true }
        if run.fnFound = false then
          (.error (.fnNotFound "tectonic_generate_format"), bundle, effInst)
        else
          let effCall := { effInst with invoked := true }
          match classifyCall run.call run.stderrText with
          | some ce => (.error (.compileErr ce), bundle, effCall)
          | none =>
            match findFmtFile run.cacheDir with
            | none => (.error (.noFormatFile run.stderrText), bundle, effCall)
            | some data =>
              (.ok (), dirWrite bundle "latex.fmt" data,
                { effCall with fileWritten := true })

/-- Outcome of attempting gzip decompression of an entry payload:
the header is invalid (gzip.NewReader fails, triggering the raw-bytes
fallback), the stream decodes to data, or the header is valid but the
body is corrupt (io.Copy fails, aborting the extraction). -/
inductive GzipResult where
  | headerInvalid
  | ok (data : List UInt8)
  | corrupt
  deriving DecidableEq

/-- One tar entry as the archive/tar reader reports it. -/
structure TarEntry where
  name : String
  typeflag : UInt8
  payload : List UInt8
  deriving DecidableEq

/-- tar.TypeReg, the regular-file type flag byte. -/
def tarTypeReg : UInt8 := 48

/-- HTTP response for the bundle download: final status code, the tar
entries successfully read from the body, and an optional tar read error
occurring after those entries. -/
structure HttpResponse where
  statusCode : Nat
  entries : List TarEntry
  tarErr : Option String
  deriving DecidableEq

/-- DefaultBundleURL from bundle.go. -/
def DefaultBundleURL : String := "https://relay.fullyjustified.net/default_bundle_v33.tar"

/-- URL actually requested: the default when the caller passed an empty
string (bundle.go lines 76-78). -/
def effectiveURL (bundleURL : String) : String :=
  if bundleURL = "" then DefaultBundleURL else bundleURL

/-- Observable side effects of one PrepareBundle call. -/
structure PrepEffects where
  networkRequests : Nat
  dirCreated : Bool
  extractionStarted : Bool
  deriving DecidableEq

/-- Extraction loop of PrepareBundle (bundle.go lines 120-165): skip
non-regular entries; for each regular entry attempt gzip decompression of
the full payload, falling back to the raw bytes when the header is
invalid, and write the result under the base filename; a corrupt gzip body
aborts with a write error. Returns the directory reached and an optional
abort error. -/
def extractEntries (gunzip : List UInt8 → GzipResult) (dir : Dir) :
    List TarEntry → Dir × Option TecError
  | [] => (dir, none)
  | e :: rest =>
    if e.typeflag != tarTypeReg then extractEntries gunzip dir rest
    else
      let name := filepathBase e.name
      match gunzip e.payload with
      | .ok data => extractEntries gunzip (dirWrite dir name data) rest
      | .headerInvalid => extractEntries gunzip (dirWrite dir name e.payload) rest
      | .corrupt => (dir, some (.writeEntryErr name))

/-- PrepareBundle from bundle.go lines 70-181: skip everything when force
is false and the SHA256SUM marker exists in the destination; otherwise
create the destination directory, issue one GET against the effective URL
(the default when empty), fail on a status other than 200, extract the
tar stream, propagate a tar read error, and fail when the destination
holds fewer than 100 entries afterwards, never removing written files. -/
def PrepareBundle (gunzip : List UInt8 → GzipResult)
    (destDir bundleURL : String) (force : Bool) (dir : Dir)
    (net : String → HttpResponse) :
    Except TecError Unit × Dir × PrepEffects :=
  if force = false ∧ dirHas dir "SHA256SUM" = true then
    (.ok (), dir,
      { networkRequests := 0, dirCreated := false, extractionStarted := false })
  else
    let resp := net (effectiveURL bundleURL)
    let effNet : PrepEffects :=
      { networkRequests := 1, dirCreated := true, extractionStarted := false }
    if resp.statusCode ≠ 200 then
      (.error (.httpErr resp.statusCode), dir, effNet)
    else
      let effExtract := { effNet with extractionStarted := true }
      let out := extractEntries gunzip dir resp.entries
      match out.2 with
      | some e => (.error e, out.1, effExtract)
      | none =>
        match resp.tarErr with
        | some m => (.error (.tarReadErr m), out.1, effExtract)
        | none =>
          if out.1.length < 100 then
            (.error (.incompleteExtraction out.1.length), out.1, effExtract)
          else
            (.ok (), out.1, effExtract)

/-! Theorems settling the claims. -/

/-- Helper: truncating a value below 2^31 is the identity. -/
theorem toInt32_small (n : Nat) (h : n < 2 ^ 31) : toInt32 n = (n : Int) := by
  have h32 : n < 2 ^ 32 := lt_of_lt_of_le h (by norm_num)
  unfold toInt32
  rw [Nat.mod_eq_of_lt h32, if_pos h]

/-- Helper: for a value below 2^32 the truncated code is 1 exactly when the
value is 1, and 2 exactly when the value is 2. -/
theorem toInt32_eq_small_iff (n : Nat) (hn : n < 2 ^ 32) (k : Nat) (hk : k < 2 ^ 31) :
    toInt32 n = (k : Int) ↔ n = k := by
  unfold toInt32
  rw [Nat.mod_eq_of_lt hn]
  split
  · constructor <;> intro h <;> omega
  · constructor <;> intro h <;> omega

/-- C1: the outcome code n of a sandbox invocation (a WASM i32 result,
reported as a Nat below 2^32) classifies as: 0 is no error; 1 is a
CompileError with IsTexError and not IsPanic; 2 is a CompileError with
IsPanic and not IsTexError; any other code is a CompileError storing the
raw code (the same i32 value, reconstructed by two's-complement
truncation) with both predicates false. The classification is a function
of the numeric signal alone: for any call result it is unchanged when the
captured diagnostic text changes. -/
theorem claim_c1_classification (n : Nat) (hn : n < 2 ^ 32) (logs logs' : String)
    (r : CallResult) :
    (classifyCall { callErr := none, results := [n] } logs =
      if n = 0 then none
      else some { ExitCode := toInt32 n, Logs := logs, WasmErr := none })
    ∧ (n = 1 →
        CompileError.IsTexError { ExitCode := toInt32 n, Logs := logs, WasmErr := none } = true ∧
        CompileError.IsPanic { ExitCode := toInt32 n, Logs := logs, WasmErr := none } = false)
    ∧ (n = 2 →
        CompileError.IsPanic { ExitCode := toInt32 n, Logs := logs, WasmErr := none } = true ∧
        CompileError.IsTexError { ExitCode := toInt32 n, Logs := logs, WasmErr := none } = false)
    ∧ (n ≠ 0 → n ≠ 1 → n ≠ 2 →
        CompileError.IsTexError { ExitCode := toInt32 n, Logs := logs, WasmErr := none } = false ∧
        CompileError.IsPanic { ExitCode := toInt32 n, Logs := logs, WasmErr := none } = false)
    ∧ classOf (classifyCall r logs) = classOf (classifyCall r logs') := by
  refine ⟨?_, ?_, ?_, ?_, ?_⟩
  · by_cases h : n = 0
    · simp [classifyCall, h]
    · simp [classifyCall, h]
  · intro h
    subst h
    constructor
    · simp [CompileError.IsTexError, toInt32_small 1 (by norm_num)]
    · simp [CompileError.IsPanic, toInt32_small 1 (by norm_num)]
  · intro h
    subst h
    constructor
    · simp [CompileError.IsPanic, toInt32_small 2 (by norm_num)]
    · simp [CompileError.IsTexError, toInt32_small 2 (by norm_num)]
  · intro h0 h1 h2
    constructor
    · simp only [CompileError.IsTexError, beq_eq_false_iff_ne, ne_eq]
      intro hc
      exact h1 ((toInt32_eq_small_iff n hn 1 (by norm_num)).mp (by exact_mod_cast hc))
    · simp only [CompileError.IsPanic, beq_eq_false_iff_ne, ne_eq]
      intro hc
      exact h2 ((toInt32_eq_small_iff n hn 2 (by norm_num)).mp (by exact_mod_cast hc))
  · obtain ⟨callErr, results⟩ := r
    cases callErr with
    | some e => simp [classifyCall, classOf]
    | none =>
      cases results with
      | nil => simp [classifyCall, classOf]
      | cons m rest =>
        by_cases h : m = 0
        · simp [classifyCall, classOf, h]
        · simp [classifyCall, classOf, h]

/-- Witness for C1 at the concrete code 5 with two different log texts. -/
theorem claim_c1_classification_witness :
    classifyCall { callErr := none, results := [5] } "logA" =
      some { ExitCode := toInt32 5, Logs := "logA", WasmErr := none } ∧
    CompileError.IsTexError { ExitCode := toInt32 5, Logs := "logA", WasmErr := none } = false ∧
    classOf (classifyCall { callErr := none, results := [5] } "logA") =
      classOf (classifyCall { callErr := none, results := [5] } "logB") := by
  have h := claim_c1_classification 5 (by norm_num) "logA" "logB"
    { callErr := none, results := [5] }
  refine ⟨?_, ?_, h.2.2.2.2⟩
  · have h1 := h.1
    simpa using h1
  · exact (h.2.2.2.1 (by norm_num) (by norm_num) (by norm_num)).1

/-- C2: when the compile entry point returns zero but the output file is
absent from the output directory, Compile returns the missing-output error
carrying the captured diagnostic text, and never a successful result. -/
theorem claim_c2_missing_output (host : CompilerConfig) (opts : List CompileOption)
    (run : SandboxRun)
    (hbd : (resolveCompileConfig host opts).bundleDir ≠ "")
    (hinst : run.instErr = none) (hfn : run.fnFound = true)
    (hcall : run.call = { callErr := none, results := [0] })
    (hout : run.outputPdf = none) :
    (Compile host opts run).1 = .error (.missingOutput run.stderrText) ∧
    ∀ pdf, (Compile host opts run).1 ≠ .ok pdf := by
  have hres : (Compile host opts run).1 = .error (.missingOutput run.stderrText) := by
    simp [Compile, hbd, hinst, hfn, hcall, hout, classifyCall]
  refine ⟨hres, ?_⟩
  intro pdf h
  rw [hres] at h
  exact Except.noConfusion h

/-- Witness for C2 at a concrete host, no options and a run whose call
returned zero with no output file. -/
theorem claim_c2_missing_output_witness :
    (Compile { defaultBundleDir := "b", defaultFontsDir := "", compilationCacheDir := "" } []
      { instErr := none, fnFound := true, call := { callErr := none, results := [0] },
        stderrText := "log text", outputPdf := none }).1 =
      .error (.missingOutput "log text") :=
  (claim_c2_missing_output
    { defaultBundleDir := "b", defaultFontsDir := "", compilationCacheDir := "" } []
    { instErr := none, fnFound := true, call := { callErr := none, results := [0] },
      stderrText := "log text", outputPdf := none }
    (by decide) rfl rfl rfl rfl).1

/-- C9: when no bundle directory is resolvable (the resolved per-call
configuration has an empty bundle directory), Compile fails with the
configuration error and the effects record shows no working directory,
no file write and no sandbox instantiation or invocation. -/
theorem claim_c9_config_error (host : CompilerConfig) (opts : List CompileOption)
    (run : SandboxRun) (h : (resolveCompileConfig host opts).bundleDir = "") :
    Compile host opts run =
      (.error (.configErr "tecgonic: no bundle directory specified (use WithDefaultBundleDir or WithBundleDir)"),
        noEffects) := by
  simp [Compile, h]

/-- Witness for C9 with an empty host default and no per-call options. -/
theorem claim_c9_config_error_witness :
    Compile { defaultBundleDir := "", defaultFontsDir := "", compilationCacheDir := "" } []
      { instErr := none, fnFound := true, call := { callErr := none, results := [0] },
        stderrText := "", outputPdf := none } =
      (.error (.configErr "tecgonic: no bundle directory specified (use WithDefaultBundleDir or WithBundleDir)"),
        noEffects) :=
  claim_c9_config_error
    { defaultBundleDir := "", defaultFontsDir := "", compilationCacheDir := "" } []
    { instErr := none, fnFound := true, call := { callErr := none, results := [0] },
      stderrText := "", outputPdf := none }
    (by decide)

/-- C10: GenerateFormat with an empty bundle-directory string returns the
configuration error at once, with the effects record showing no filesystem
access (not even the stat), no working directory and no sandbox work. -/
theorem claim_c10_empty_bundle_dir (bundle : Dir) (run : FmtRun) :
    GenerateFormat "" bundle run =
      (.error (.configErr "tecgonic: no bundle directory specified"), bundle, noEffects) := by
  simp [GenerateFormat]

/-- Helper: after writing a name into a directory, the name exists. -/
theorem dirHas_dirWrite_self (d : Dir) (name : String) (content : List UInt8) :
    dirHas (dirWrite d name content) name = true := by
  unfold dirWrite
  split
  · rename_i h
    unfold dirHas at h ⊢
    rw [List.any_map]
    rw [List.any_eq_true] at h ⊢
    obtain ⟨x, hx, hx2⟩ := h
    refine ⟨x, hx, ?_⟩
    simp [Function.comp, hx2]
  · unfold dirHas
    rw [List.any_append]
    simp

/-- Helper: a successful GenerateFormat call leaves latex.fmt present in
the resulting bundle directory (either it was there already, or the
located artifact was just written under that name). -/
theorem generateFormat_ok_fmt (bundleDir : String) (bundle : Dir) (run : FmtRun)
    (hbd : ¬ bundleDir = "") :
    (GenerateFormat bundleDir bundle run).1 = .ok () →
    dirHas (GenerateFormat bundleDir bundle run).2.1 "latex.fmt" = true := by
  obtain ⟨instErr, fnFound, call, stderrText, cacheDir⟩ := run
  by_cases hfmt : dirHas bundle "latex.fmt" = true
  · simp [GenerateFormat, hbd, hfmt]
  · cases instErr with
    | some e => simp [GenerateFormat, hbd, hfmt]
    | none =>
      cases fnFound with
      | false => simp [GenerateFormat, hbd, hfmt]
      | true =>
        cases hcl : classifyCall call stderrText with
        | some ce => simp [GenerateFormat, hbd, hfmt, hcl]
        | none =>
          cases hff : findFmtFile cacheDir with
          | none => simp [GenerateFormat, hbd, hfmt, hcl, hff]
          | some data =>
            simp [GenerateFormat, hbd, hfmt, hcl, hff, dirHas_dirWrite_self]

/-- C5: GenerateFormat is idempotent. When latex.fmt already exists in the
bundle directory, the call returns success with the bundle unchanged and
effects showing only the stat (no working-directory allocation, no
sandbox instantiation, no invocation); hence after any successful first
call, a second call returns success with no sandbox work. -/
theorem claim_c5_idempotent :
    (∀ (bundleDir : String) (bundle : Dir) (run : FmtRun), bundleDir ≠ "" →
      dirHas bundle "latex.fmt" = true →
      GenerateFormat bundleDir bundle run =
        (.ok (), bundle, { noEffects with statted := true }))
    ∧ (∀ (bundleDir : String) (bundle : Dir) (run run2 : FmtRun), bundleDir ≠ "" →
      (GenerateFormat bundleDir bundle run).1 = .ok () →
      GenerateFormat bundleDir (GenerateFormat bundleDir bundle run).2.1 run2 =
        (.ok (), (GenerateFormat bundleDir bundle run).2.1,
          { noEffects with statted := true })) := by
  have base : ∀ (bundleDir : String) (bundle : Dir) (run : FmtRun), bundleDir ≠ "" →
      dirHas bundle "latex.fmt" = true →
      GenerateFormat bundleDir bundle run =
        (.ok (), bundle, { noEffects with statted := true }) := by
    intro bd bundle run hbd hfmt
    simp [GenerateFormat, hbd, hfmt]
  refine ⟨base, ?_⟩
  intro bd bundle run run2 hbd hok
  exact base bd (GenerateFormat bd bundle run).2.1 run2 hbd
    (generateFormat_ok_fmt bd bundle run hbd hok)

/-- Witness for C5: a bundle that already holds latex.fmt, exercised both
as a direct call and as the second call after that first success. -/
theorem claim_c5_idempotent_witness :
    GenerateFormat "b" [("latex.fmt", [])]
      { instErr := none, fnFound := true, call := { callErr := none, results := [0] },
        stderrText := "", cacheDir := [] } =
      (.ok (), [("latex.fmt", [])], { noEffects with statted := true }) :=
  claim_c5_idempotent.1 "b" [("latex.fmt", [])]
    { instErr := none, fnFound := true, call := { callErr := none, results := [0] },
      stderrText := "", cacheDir := [] }
    (by decide) (by decide)

/-- C3 counterexample: a sandbox invocation that returns the numeric code
2 without trapping makes Compile produce a CompileError that is classified
as an engine fault (IsPanic) yet carries no wrapped cause: Unwrap is none.
The claim that every engine-fault CompileError carries a non-nil wrapped
cause is therefore false on the code. -/
theorem claim_c3_cex :
    (Compile { defaultBundleDir := "b", defaultFontsDir := "", compilationCacheDir := "" } []
      { instErr := none, fnFound := true, call := { callErr := none, results := [2] },
        stderrText := "boom", outputPdf := none }).1 =
      .error (.compileErr { ExitCode := 2, Logs := "boom", WasmErr := none }) ∧
    CompileError.IsPanic { ExitCode := 2, Logs := "boom", WasmErr := none } = true ∧
    CompileError.Unwrap { ExitCode := 2, Logs := "boom", WasmErr := none } = none := by
  refine ⟨?_, by decide, rfl⟩
  have hbd : (resolveCompileConfig
      { defaultBundleDir := "b", defaultFontsDir := "", compilationCacheDir := "" }
      []).bundleDir ≠ "" := by decide
  simp [Compile, classifyCall, toInt32, hbd]

/-- C3 amended: a CompileError produced by Compile or GenerateFormat from
a trapped invocation (a non-nil low-level call error) is an engine fault
carrying that trap as its non-nil wrapped cause via Unwrap, while a
CompileError produced from a plain numeric return — including the code
2 — carries no wrapped cause. -/
theorem claim_c3_panic_cause (host : CompilerConfig) (opts : List CompileOption)
    (run : SandboxRun) (bundleDir : String) (bundle : Dir) (frun : FmtRun)
    (w w2 : WasmError) (n : Nat) (logs : String)
    (hbd : (resolveCompileConfig host opts).bundleDir ≠ "")
    (hinst : run.instErr = none) (hfn : run.fnFound = true)
    (htrap : run.call.callErr = some w)
    (hfbd : bundleDir ≠ "") (hffmt : dirHas bundle "latex.fmt" = false)
    (hfinst : frun.instErr = none) (hffn : frun.fnFound = true)
    (hftrap : frun.call.callErr = some w2)
    (hn : n ≠ 0) :
    (Compile host opts run).1 =
      .error (.compileErr { ExitCode := 2, Logs := run.stderrText, WasmErr := some w }) ∧
    CompileError.Unwrap { ExitCode := 2, Logs := run.stderrText, WasmErr := some w } ≠ none ∧
    (GenerateFormat bundleDir bundle frun).1 =
      .error (.compileErr { ExitCode := 2, Logs := frun.stderrText, WasmErr := some w2 }) ∧
    CompileError.Unwrap { ExitCode := 2, Logs := frun.stderrText, WasmErr := some w2 } ≠ none ∧
    classifyCall { callErr := none, results := [n] } logs =
      some { ExitCode := toInt32 n, Logs := logs, WasmErr := none } := by
  refine ⟨?_, by simp [CompileError.Unwrap], ?_, by simp [CompileError.Unwrap], ?_⟩
  · simp [Compile, hbd, hinst, hfn, classifyCall, htrap]
  · simp [GenerateFormat, hfbd, hffmt, hfinst, hffn, classifyCall, hftrap]
  · simp [classifyCall, hn]

/-- Witness for the amended C3 at concrete trapped runs and the concrete
numeric code 2. -/
theorem claim_c3_panic_cause_witness :
    (Compile { defaultBundleDir := "b", defaultFontsDir := "", compilationCacheDir := "" } []
      { instErr := none, fnFound := true,
        call := { callErr := some { msg := "trap" }, results := [] },
        stderrText := "L1", outputPdf := none }).1 =
      .error (.compileErr { ExitCode := 2, Logs := "L1", WasmErr := some { msg := "trap" } }) ∧
    CompileError.Unwrap { ExitCode := 2, Logs := "L1", WasmErr := some { msg := "trap" } } ≠ none ∧
    (GenerateFormat "b" []
      { instErr := none, fnFound := true,
        call := { callErr := some { msg := "trap2" }, results := [] },
        stderrText := "L2", cacheDir := [] }).1 =
      .error (.compileErr { ExitCode := 2, Logs := "L2", WasmErr := some { msg := "trap2" } }) ∧
    CompileError.Unwrap { ExitCode := 2, Logs := "L2", WasmErr := some { msg := "trap2" } } ≠ none ∧
    classifyCall { callErr := none, results := [2] } "L3" =
      some { ExitCode := toInt32 2, Logs := "L3", WasmErr := none } :=
  claim_c3_panic_cause
    { defaultBundleDir := "b", defaultFontsDir := "", compilationCacheDir := "" } []
    { instErr := none, fnFound := true,
      call := { callErr := some { msg := "trap" }, results := [] },
      stderrText := "L1", outputPdf := none }
    "b" []
    { instErr := none, fnFound := true,
      call := { callErr := some { msg := "trap2" }, results := [] },
      stderrText := "L2", cacheDir := [] }
    { msg := "trap" } { msg := "trap2" } 2 "L3"
    (by decide) rfl rfl rfl (by decide) rfl rfl rfl rfl (by decide)

/-- C4: for every regular-file entry of the archive, gzip decompression of
the full payload is attempted; when the payload has no valid gzip header
the raw bytes become the content, without an error; in either case the
entry is written into the destination under the base filename of its
archive path, and extraction proceeds with the remaining entries. -/
theorem claim_c4_entry_fallback (gunzip : List UInt8 → GzipResult) (dir : Dir)
    (e : TarEntry) (rest : List TarEntry) (hreg : e.typeflag = tarTypeReg) :
    (gunzip e.payload = .headerInvalid →
      extractEntries gunzip dir (e :: rest) =
        extractEntries gunzip (dirWrite dir (filepathBase e.name) e.payload) rest)
    ∧ (∀ data, gunzip e.payload = .ok data →
      extractEntries gunzip dir (e :: rest) =
        extractEntries gunzip (dirWrite dir (filepathBase e.name) data) rest) := by
  constructor
  · intro h
    simp [extractEntries, hreg, h]
  · intro data h
    simp [extractEntries, hreg, h]

/-- Witness for C4 with a concrete regular entry whose payload is not
gzip, written under its base filename. -/
theorem claim_c4_entry_fallback_witness :
    extractEntries (fun _ => GzipResult.headerInvalid) []
      [{ name := "texmf/tex/x.tex", typeflag := 48, payload := [7, 8] }] =
      extractEntries (fun _ => GzipResult.headerInvalid)
        (dirWrite [] (filepathBase "texmf/tex/x.tex") [7, 8]) [] :=
  (claim_c4_entry_fallback (fun _ => GzipResult.headerInvalid) []
    { name := "texmf/tex/x.tex", typeflag := 48, payload := [7, 8] } [] rfl).1 rfl

/-- C6: PrepareBundle with force false and the SHA256SUM marker present in
the destination returns success at once, with the directory unchanged,
zero network requests, no directory creation and no extraction. -/
theorem claim_c6_marker_skip (gunzip : List UInt8 → GzipResult) (destDir url : String)
    (dir : Dir) (net : String → HttpResponse)
    (h : dirHas dir "SHA256SUM" = true) :
    PrepareBundle gunzip destDir url false dir net =
      (.ok (), dir,
        { networkRequests := 0, dirCreated := false, extractionStarted := false }) := by
  simp [PrepareBundle, h]

/-- Witness for C6 on a directory holding the marker. -/
theorem claim_c6_marker_skip_witness :
    PrepareBundle (fun _ => GzipResult.headerInvalid) "dest" "" false
      [("SHA256SUM", [1])] (fun _ => { statusCode := 200, entries := [], tarErr := none }) =
      (.ok (), [("SHA256SUM", [1])],
        { networkRequests := 0, dirCreated := false, extractionStarted := false }) :=
  claim_c6_marker_skip (fun _ => GzipResult.headerInvalid) "dest" ""
    [("SHA256SUM", [1])] (fun _ => { statusCode := 200, entries := [], tarErr := none })
    (by decide)

/-- C7 counterexample: a 204 response is a 2xx status, yet the download
step fails with the HTTP error and extraction never starts, contrary to
the claim that every 2xx response proceeds to extraction. -/
theorem claim_c7_cex :
    (200 ≤ 204 ∧ 204 < 300) ∧
    (PrepareBundle (fun _ => GzipResult.headerInvalid) "dest" "u" true []
      (fun _ => { statusCode := 204, entries := [], tarErr := none })).1 =
      .error (.httpErr 204) ∧
    (PrepareBundle (fun _ => GzipResult.headerInvalid) "dest" "u" true []
      (fun _ => { statusCode := 204, entries := [], tarErr := none })).2.2.extractionStarted =
      false := by
  refine ⟨by norm_num, ?_, ?_⟩ <;> rfl

/-- Helper: the extraction loop aborts only with a write-entry error. -/
theorem extractEntries_err (gunzip : List UInt8 → GzipResult) (dir : Dir)
    (entries : List TarEntry) :
    ∀ e, (extractEntries gunzip dir entries).2 = some e →
      ∃ name, e = .writeEntryErr name := by
  induction entries generalizing dir with
  | nil =>
    intro e h
    simp [extractEntries] at h
  | cons hd tl ih =>
    intro e h
    unfold extractEntries at h
    by_cases hreg : hd.typeflag != tarTypeReg
    · rw [if_pos hreg] at h
      exact ih _ e h
    · rw [if_neg hreg] at h
      cases hg : gunzip hd.payload with
      | ok data =>
        rw [hg] at h
        exact ih _ e h
      | headerInvalid =>
        rw [hg] at h
        exact ih _ e h
      | corrupt =>
        rw [hg] at h
        simp at h
        exact ⟨_, h.symm⟩

/-- C7 amended: when the marker skip is not taken, the download step fails
with the HTTP error exactly when the response status is not 200 (the only
status the code accepts), and for a 200 response the call proceeds to
extraction and never reports an HTTP status error. -/
theorem claim_c7_http_status (gunzip : List UInt8 → GzipResult) (destDir url : String)
    (force : Bool) (dir : Dir) (net : String → HttpResponse)
    (hskip : ¬ (force = false ∧ dirHas dir "SHA256SUM" = true)) :
    ((net (effectiveURL url)).statusCode ≠ 200 →
      PrepareBundle gunzip destDir url force dir net =
        (.error (.httpErr (net (effectiveURL url)).statusCode), dir,
          { networkRequests := 1, dirCreated := true, extractionStarted := false }))
    ∧ ((net (effectiveURL url)).statusCode = 200 →
      (PrepareBundle gunzip destDir url force dir net).2.2.extractionStarted = true ∧
      ∀ s, (PrepareBundle gunzip destDir url force dir net).1 ≠ .error (.httpErr s)) := by
  constructor
  · intro hne
    simp [PrepareBundle, hskip, hne]
  · intro h200
    have hnn : ¬ ((net (effectiveURL url)).statusCode ≠ 200) := by simp [h200]
    unfold PrepareBundle
    rw [if_neg hskip]
    simp only [hnn, if_neg, ite_false, if_false]
    cases hout : (extractEntries gunzip dir (net (effectiveURL url)).entries).2 with
    | some e =>
      simp only [hout]
      refine ⟨by trivial, ?_⟩
      intro s
      obtain ⟨name, rfl⟩ :=
        extractEntries_err gunzip dir (net (effectiveURL url)).entries e hout
      simp
    | none =>
      simp only [hout]
      cases htar : (net (effectiveURL url)).tarErr with
      | some m =>
        simp only [htar]
        exact ⟨by trivial, by intro s; simp⟩
      | none =>
        simp only [htar]
        by_cases hlen : (extractEntries gunzip dir (net (effectiveURL url)).entries).1.length < 100
        · rw [if_pos hlen]
          exact ⟨by trivial, by intro s; simp⟩
        · rw [if_neg hlen]
          exact ⟨by trivial, by intro s; simp⟩

/-- Witness for the amended C7: a 500 response fails with the HTTP error,
and a 200 response reaches extraction. -/
theorem claim_c7_http_status_witness :
    (PrepareBundle (fun _ => GzipResult.headerInvalid) "dest" "u" true []
      (fun _ => { statusCode := 500, entries := [], tarErr := none }) =
      (.error (.httpErr 500), [],
        { networkRequests := 1, dirCreated := true, extractionStarted := false })) ∧
    (PrepareBundle (fun _ => GzipResult.headerInvalid) "dest" "u" true []
      (fun _ => { statusCode := 200, entries := [], tarErr := none })).2.2.extractionStarted =
      true :=
  ⟨(claim_c7_http_status (fun _ => GzipResult.headerInvalid) "dest" "u" true []
      (fun _ => { statusCode := 500, entries := [], tarErr := none })
      (by decide)).1 (by decide),
   ((claim_c7_http_status (fun _ => GzipResult.headerInvalid) "dest" "u" true []
      (fun _ => { statusCode := 200, entries := [], tarErr := none })
      (by decide)).2 rfl).1⟩

/-- C8: after the stream ends with every entry handled and no tar error,
a destination directory holding fewer than 100 entries makes PrepareBundle
fail with the incomplete-extraction error while the directory keeps
exactly the extraction result (no rollback). -/
theorem claim_c8_min_file_count (gunzip : List UInt8 → GzipResult) (destDir url : String)
    (force : Bool) (dir : Dir) (net : String → HttpResponse)
    (hskip : ¬ (force = false ∧ dirHas dir "SHA256SUM" = true))
    (h200 : (net (effectiveURL url)).statusCode = 200)
    (hext : (extractEntries gunzip dir (net (effectiveURL url)).entries).2 = none)
    (htar : (net (effectiveURL url)).tarErr = none)
    (hcount : (extractEntries gunzip dir (net (effectiveURL url)).entries).1.length < 100) :
    PrepareBundle gunzip destDir url force dir net =
      (.error (.incompleteExtraction
          (extractEntries gunzip dir (net (effectiveURL url)).entries).1.length),
        (extractEntries gunzip dir (net (effectiveURL url)).entries).1,
        { networkRequests := 1, dirCreated := true, extractionStarted := true }) := by
  simp [PrepareBundle, hskip, h200, hext, htar, hcount]

/-- Witness for C8: a 200 response whose archive holds a single regular
entry extracts that one file and then fails the minimum-count check, with
the file still present. -/
theorem claim_c8_min_file_count_witness :
    PrepareBundle (fun _ => GzipResult.headerInvalid) "dest" "u" true []
      (fun _ => { statusCode := 200,
                  entries := [{ name := "a/b", typeflag := 48, payload := [9] }],
                  tarErr := none }) =
      (.error (.incompleteExtraction
          (extractEntries (fun _ => GzipResult.headerInvalid) []
            [{ name := "a/b", typeflag := 48, payload := [9] }]).1.length),
        (extractEntries (fun _ => GzipResult.headerInvalid) []
          [{ name := "a/b", typeflag := 48, payload := [9] }]).1,
        { networkRequests := 1, dirCreated := true, extractionStarted := true }) :=
  claim_c8_min_file_count (fun _ => GzipResult.headerInvalid) "dest" "u" true []
    (fun _ => { statusCode := 200,
                entries := [{ name := "a/b", typeflag := 48, payload := [9] }],
                tarErr := none })
    (by decide) rfl (by decide) rfl (by decide)

end Tecgonic
